import Mathlib

/-!
Shallow embedding of the web-rag-original repository's core request
orchestration and security layer, together with proofs settling the
frozen specification claims.

Embedded source files:
  * `backend/auth_service/security/middleware.py` (rate limiting, CSRF
    validation, token validation, token creation),
  * `backend/auth_service/main.py` (refresh-token storage, revocation,
    the `/refresh` rotation endpoint),
  * `backend/llm_service/main.py` (tool-dispatch loop, markdown table
    formatting),
  * `backend/notification_service/main.py` and `src/tools/twilio.py`
    (phone normalization — both copies are textually identical),
  * `backend/conversation_service/main.py` (`/store`).

Python strings are modelled as Lean `String`/`List Char`; the byte
values the services store in Redis are ASCII numerals or identifiers,
so one character corresponds to one byte throughout.  Fallible calls
(network, JSON parsing) are modelled with `Except`/`Option`.
-/

namespace WebRag

/-! ## Python string primitives used by the sources -/

/-- Python `str.split(sep)` for a one-character separator, as an
accumulator recursion over the character list.  Mirrors CPython
semantics: `"".split(c) = [""]`, a trailing separator yields a trailing
empty field. -/
def pySplitAux (sep : Char) : List Char → List Char → List (List Char)
  | [], acc => [acc.reverse]
  | c :: rest, acc =>
    if c = sep then acc.reverse :: pySplitAux sep rest []
    else pySplitAux sep rest (c :: acc)

def pySplit (sep : Char) (s : List Char) : List (List Char) :=
  pySplitAux sep s []

/-- Python `sep.join(parts)` for a one-character separator. -/
def pyJoin (sep : Char) : List (List Char) → List Char
  | [] => []
  | [p] => p
  | p :: rest => p ++ sep :: pyJoin sep rest

/-- Characters removed by Python `str.strip()` (no-argument form). -/
def pyIsSpace (c : Char) : Bool :=
  c = ' ' || c = '\t' || c = '\n' || c = '\r' || c = '\x0b' || c = '\x0c'

/-- Python `str.strip()`. -/
def pyStrip (s : List Char) : List Char :=
  (s.dropWhile pyIsSpace).reverse.dropWhile pyIsSpace |>.reverse

/-- Python `s.startswith(p)`. -/
def pyStartsWith (p s : List Char) : Bool :=
  p.isPrefixOf s

/-- Python `s[-n:]` on lists (the last `n` elements, or all of them if
fewer). -/
def pyLastN (n : Nat) (l : List α) : List α :=
  l.drop (l.length - n)

/-- Python `s.count(c)` for a single character. -/
def pyCountChar (c : Char) (s : List Char) : Nat :=
  s.countP (· = c)

/-- Python `sep.join(parts)` for an arbitrary separator string. -/
def pyJoinStr (sep : List Char) : List (List Char) → List Char
  | [] => []
  | [p] => p
  | p :: q :: rest => p ++ sep ++ pyJoinStr sep (q :: rest)

/-- Python `"---" in line`: three consecutive dashes occur. -/
def hasTripleDash : List Char → Bool
  | '-' :: '-' :: '-' :: _ => true
  | _ :: rest => hasTripleDash rest
  | [] => false

/-- Python `'|' in text`. -/
def hasPipe (s : List Char) : Bool :=
  s.any (· = '|')

/-! ## Decimal numerals
The services store counters in Redis as decimal numeral strings
(`set(key, "1")`, `INCR`) and read them back with Python `int(...)`.
We model printing and parsing explicitly and prove the roundtrip. -/

/-- The ASCII digit for `d < 10`. -/
def digChar (d : Nat) : Char :=
  Char.ofNat (48 + d)

/-- Numeric value of an ASCII digit character, `none` otherwise. -/
def digVal? (c : Char) : Option Nat :=
  if '0' ≤ c ∧ c ≤ '9' then some (c.toNat - 48) else none

/-- Little-endian decimal digits, structurally recursive on a fuel
bound (`fuel >= n` always suffices, since `n / 10 < n` for `n >= 10`). -/
def decRevCharsAux : Nat → Nat → List Char
  | 0, n => [digChar n]
  | fuel + 1, n =>
    if n < 10 then [digChar n]
    else digChar (n % 10) :: decRevCharsAux fuel (n / 10)

/-- Little-endian decimal digits of `n` (always nonempty). -/
def decRevChars (n : Nat) : List Char :=
  decRevCharsAux n n

/-- Decimal rendering of a natural number (Python `str(n)` for the
values the services produce). -/
def natRepr (n : Nat) : String :=
  ⟨(decRevChars n).reverse⟩

def decStep (acc : Option Nat) (c : Char) : Option Nat :=
  acc.bind fun a => (digVal? c).map fun d => a * 10 + d

/-- Python `int(s)` restricted to plain decimal numerals: `none` models
a raised `ValueError` (empty string or a non-digit character). -/
def pyInt (s : String) : Option Nat :=
  if s.data = [] then none
  else s.data.foldl decStep (some 0)

/-! ## Base64url encoding
Interface model of the `python-jose` JWT serialization: a JWT string
is `b64url(header) ++ "." ++ b64url(payload) ++ "." ++ b64url(sig)`,
where base64url output draws on an alphabet that does not contain a
dot.  Bytes are `Nat`s; the chunk arithmetic keeps every alphabet
index below 64. -/

def b64Char (n : Nat) : Char :=
  if n < 26 then Char.ofNat (65 + n)
  else if n < 52 then Char.ofNat (97 + (n - 26))
  else if n < 62 then Char.ofNat (48 + (n - 52))
  else if n = 62 then '-'
  else '_'

/-- Base64url (no padding), three input bytes per four output
characters. -/
def b64urlEncode : List Nat → List Char
  | [] => []
  | [a] => [b64Char (a / 4 % 64), b64Char (a % 4 * 16)]
  | [a, b] => [b64Char (a / 4 % 64), b64Char (a % 4 * 16 + b / 16 % 16),
               b64Char (b % 16 * 4)]
  | a :: b :: c :: rest =>
    b64Char (a / 4 % 64) :: b64Char (a % 4 * 16 + b / 16 % 16) ::
    b64Char (b % 16 * 4 + c / 64 % 4) :: b64Char (c % 64) :: b64urlEncode rest

def b64urlStr (bs : List Nat) : String := ⟨b64urlEncode bs⟩

/-- Byte view of the ASCII strings the service signs (one character,
one byte). -/
def strBytes (s : String) : List Nat :=
  s.data.map Char.toNat

/-! ## Markdown table formatting
`backend/llm_service/main.py`, `format_table_response` (lines 465–496)
and `format_as_markdown_table` (lines 498–527). -/

/-- Cleaning of one table line inside `format_as_markdown_table`:
strip, drop one leading and one trailing pipe, split on `|`, strip each
cell, and rebuild as `| c1 | c2 | ... |`. -/
def cleanTableLine (line : List Char) : List Char :=
  let l := pyStrip line
  let l := if pyStartsWith ['|'] l then l.drop 1 else l
  let l := if l.getLast? = some '|' then l.dropLast else l
  let cells := (pySplit '|' l).map pyStrip
  '|' :: ' ' :: (pyJoinStr [' ', '|', ' '] cells ++ [' ', '|'])

/-- `format_as_markdown_table`: first cleaned line, then a separator
row with `len(cleaned[0].split('|')) - 1` dash groups, then the
remaining cleaned lines, joined with newlines. -/
def format_as_markdown_table (table_lines : List (List Char)) : List Char :=
  match table_lines with
  | [] => []
  | first :: rest =>
    let c0 := cleanTableLine first
    let cell_count := (pySplit '|' c0).length - 1
    let separator :=
      '|' :: (pyJoinStr ['|'] (List.replicate cell_count ['-', '-', '-']) ++ ['|'])
    pyJoinStr ['\n'] (c0 :: separator :: rest.map cleanTableLine)

/-- A line the formatter collects into a table block:
`line.count('|') > 2 and '---' not in line`. -/
def isTableLine (l : List Char) : Bool :=
  decide (pyCountChar '|' l > 2) && !hasTripleDash l

/-- The line loop of `format_table_response`.  The `Option` argument is
the `in_table`/`table_data` pair: `none` when not inside a table block,
`some td` for the lines collected so far. -/
def ftrLoop : List (List Char) → Option (List (List Char)) → List (List Char)
  | [], none => []
  | [], some td => [format_as_markdown_table td]
  | l :: rest, none =>
    if isTableLine l then ftrLoop rest (some [l])
    else l :: ftrLoop rest none
  | l :: rest, some td =>
    if isTableLine l then ftrLoop rest (some (td ++ [l]))
    else format_as_markdown_table td :: l :: ftrLoop rest none

/-- `format_table_response`: pass text with no `|` through unchanged,
otherwise split into lines, run the table-collection loop, and rejoin
with newlines. -/
def format_table_response (text : String) : String :=
  if !hasPipe text.data then text
  else ⟨pyJoinStr ['\n'] (ftrLoop (pySplit '\n' text.data) none)⟩

/-! ## Phone normalization
`backend/notification_service/main.py`, `format_phone_number`
(lines 131–156); `src/tools/twilio.py` has the identical function. -/

/-- `re.sub(r'[\s\-\(\)]', '', phone_number)`: drop whitespace, dashes
and parentheses. -/
def phoneClean (s : List Char) : List Char :=
  s.filter (fun c => !(pyIsSpace c || c = '-' || c = '(' || c = ')'))

/-- `format_phone_number` from `backend/notification_service/main.py`
(and the identical `TwilioService.format_phone_number` in
`src/tools/twilio.py`). -/
def format_phone_number (phone_number : String) : String :=
  let cleaned := phoneClean phone_number.data
  -- Handle UK mobile numbers (07xxx)
  if pyStartsWith ['0', '7'] cleaned && cleaned.length = 11 then
    ⟨'+' :: '4' :: '4' :: cleaned.drop 1⟩
  -- Handle numbers with international prefix
  else if pyStartsWith ['+'] cleaned then
    ⟨cleaned⟩
  -- Handle numbers with 00 international prefix
  else if pyStartsWith ['0', '0'] cleaned then
    ⟨'+' :: cleaned.drop 2⟩
  -- No country code: assume UK, dropping a leading 0
  else if cleaned.length = 10 || cleaned.length = 11 then
    if pyStartsWith ['0'] cleaned then ⟨'+' :: '4' :: '4' :: cleaned.drop 1⟩
    else ⟨'+' :: '4' :: '4' :: cleaned⟩
  -- Fallback: just prepend +
  else
    ⟨'+' :: cleaned⟩

/-! ## Redis model
Both the auth service and the security middleware talk to one Redis
instance.  Entries carry the TTL passed at `SET`/`EXPIRE` time (`none`
for no expiry).  `reachable = false` models an unreachable store: every
operation raises (`Except.error`). -/

/-- Python truthiness of a Redis `GET` result (`None` and `b""` are
falsy, every other reply truthy). -/
def pyTruthy : Option String → Bool
  | none => false
  | some s => s ≠ ""

structure KVEntry where
  key : String
  value : String
  ttl : Option Nat
deriving DecidableEq, Repr

structure FWStore where
  entries : List KVEntry
deriving DecidableEq, Repr

def FWStore.lookup (st : FWStore) (k : String) : Option String :=
  (st.entries.find? (fun e => e.key = k)).map KVEntry.value

def FWStore.setKey (st : FWStore) (k v : String) (ttl : Option Nat) : FWStore :=
  ⟨⟨k, v, ttl⟩ :: st.entries.filter (fun e => e.key ≠ k)⟩

structure RedisEnv where
  store : FWStore
  reachable : Bool
deriving DecidableEq, Repr

def RedisEnv.get (env : RedisEnv) (k : String) : Except Unit (Option String) :=
  if env.reachable then .ok (env.store.lookup k) else .error ()

/-- `SET key value EX ttl`. -/
def RedisEnv.setEx (env : RedisEnv) (k v : String) (ttl : Nat) :
    Except Unit RedisEnv :=
  if env.reachable then .ok ⟨env.store.setKey k v (some ttl), true⟩
  else .error ()

/-- `INCR key`: missing key counts as 0; a non-numeral value is a Redis
error. A fresh counter has no TTL until `EXPIRE` is called. -/
def RedisEnv.incr (env : RedisEnv) (k : String) : Except Unit RedisEnv :=
  if env.reachable then
    match env.store.lookup k with
    | none => .ok ⟨env.store.setKey k (natRepr 1) none, true⟩
    | some v =>
      match pyInt v with
      | none => .error ()
      | some n => .ok ⟨env.store.setKey k (natRepr (n + 1)) ((env.store.entries.find? (fun e => e.key = k)).bind KVEntry.ttl), true⟩
  else .error ()

/-- `EXPIRE key ttl`. -/
def RedisEnv.expire (env : RedisEnv) (k : String) (ttl : Nat) :
    Except Unit RedisEnv :=
  if env.reachable then
    match env.store.lookup k with
    | none => .ok env
    | some v => .ok ⟨env.store.setKey k v (some ttl), true⟩
  else .error ()

/-! ## Security middleware
`backend/auth_service/security/middleware.py`.  Environment-default
configuration constants (lines 21–30). -/

def RATE_LIMIT_WINDOW : Nat := 900
def LOGIN_RATE_LIMIT : Nat := 5
def REGISTER_RATE_LIMIT : Nat := 3
def API_RATE_LIMIT : Nat := 100
def IP_BLOCK_THRESHOLD : Nat := 10

/-- `SecurityMiddleware._get_client_ip`: first entry of
`X-Forwarded-For` when that header is truthy, else the direct client
host. -/
def getClientIp (xForwardedFor : Option String) (host : String) : String :=
  match xForwardedFor with
  | some f =>
    if f = "" then host
    else ⟨pyStrip ((pySplit ',' f.data).headI)⟩
  | none => host

/-- `SecurityMiddleware._check_rate_limit`.  Returns the admission
decision and the resulting Redis state.  The `try`/`except` structure
of the source is mirrored by matching on each operation's `Except`:
the block-entry check continues on error, the counter section falls
through to `return True` on error, and a failing block-entry write is
ignored. -/
def checkRateLimitSome (env : RedisEnv) (xff : Option String) (host : String)
    (path : String) (limit : Nat) : Bool × RedisEnv :=
  let client_ip := getClientIp xff host
  let rate_key := "rate:" ++ client_ip ++ ":" ++ path
  let block_key := "block:" ++ client_ip
  -- Check if IP is blocked (errors here fall through to the counter)
  let blocked : Bool :=
    match env.get block_key with
    | .ok v => pyTruthy v
    | .error _ => false
  if blocked then (false, env)
  else
    -- Count request in current window
    match env.get rate_key with
    | .error _ => (true, env)
    | .ok raw =>
      match (if pyTruthy raw then pyInt (raw.getD "") else some 0) with
      | none => (true, env)
      | some count =>
        if limit ≤ count then
          -- Check for failed login attempts
          if path = "/api/auth/login" ∧ IP_BLOCK_THRESHOLD ≤ count then
            match env.setEx block_key "1" RATE_LIMIT_WINDOW with
            | .ok env2 => (false, env2)
            | .error _ => (false, env)
          else (false, env)
        else if count = 0 then
          -- First request in this window - set with expiry
          match env.setEx rate_key "1" RATE_LIMIT_WINDOW with
          | .ok env2 => (true, env2)
          | .error _ => (true, env)
        else
          -- Increment existing counter, then refresh the expiry
          match env.incr rate_key with
          | .error _ => (true, env)
          | .ok env2 =>
            match env2.expire rate_key RATE_LIMIT_WINDOW with
            | .ok env3 => (true, env3)
            | .error _ => (true, env2)

/-- Invariant tying the counter value to the number of admitted
requests in the current window: no block entry, and the counter holds
the numeral `k` (absent for `k = 0`). -/
def RLInv (rate_key block_key : String) (k : Nat) (env : RedisEnv) : Prop :=
  env.reachable = true ∧
  env.store.lookup block_key = none ∧
  env.store.lookup rate_key = (if k = 0 then none else some (natRepr k))

/-- A sequence of `k` admission checks for one client and path,
threading the Redis state; returns the decisions in call order. -/
def runAdmits (xff : Option String) (host path : String) (limit : Nat) :
    Nat → RedisEnv → List Bool × RedisEnv
  | 0, env => ([], env)
  | k + 1, env =>
    let r := checkRateLimitSome env xff host path limit
    let rest := runAdmits xff host path limit k r.2
    (r.1 :: rest.1, rest.2)

/-- `_check_rate_limit` including the `if not self.redis` guard. -/
def checkRateLimit (redis : Option RedisEnv) (xff : Option String)
    (host : String) (path : String) (limit : Nat) : Bool × Option RedisEnv :=
  match redis with
  | none => (true, none)
  | some env =>
    let r := checkRateLimitSome env xff host path limit
    (r.1, some r.2)

/-- `SecurityMiddleware._validate_csrf_token`: header token and cookie
token must both be truthy and equal. -/
def validateCsrfToken (headerToken cookieToken : Option String) : Bool :=
  if !pyTruthy headerToken then false
  else if !pyTruthy cookieToken then false
  else headerToken = cookieToken

/-- CSRF-exempt paths (`skip_csrf` in `SecurityMiddleware.__call__`). -/
def SKIP_CSRF_PATHS : List String :=
  ["/health", "/api/health", "/api/auth/login", "/api/auth/register",
   "/api/auth/csrf-token", "/csrf-token", "/test"]

def STATE_CHANGING_METHODS : List String := ["POST", "PUT", "PATCH", "DELETE"]

/-- The CSRF gate of `SecurityMiddleware.__call__` (lines 103–110):
`true` means the middleware answers HTTP 403 before reaching the
handler. -/
def csrfGate403 (path method : String)
    (headerToken cookieToken : Option String) : Bool :=
  ¬ (path ∈ SKIP_CSRF_PATHS) ∧ method ∈ STATE_CHANGING_METHODS ∧
    !validateCsrfToken headerToken cookieToken

/-- Decoded JWT claims.  A missing `jti` claim is modelled by `""`
(the source rejects via the falsy check `if not jti`). -/
structure Claims where
  sub : String
  jti : String
  type : String
  user_id : String
  exp : Nat
  iat : Nat
deriving DecidableEq, Repr

/-- `SecurityMiddleware._validate_token`.  `jwt.decode`'s
signature-and-expiry verification is abstracted as the `decoded`
argument (`.ok claims` = signature valid, not expired; `.error` =
`JWTError`).  Returns the attached claims, or `none` for a 401. -/
def validateToken (redis : Option RedisEnv) (decoded : Except Unit Claims) :
    Option Claims :=
  match decoded with
  | .error _ => none
  | .ok payload =>
    if payload.type ≠ "access" then none
    else if payload.jti = "" then none
    else
      match redis with
      | none => some payload
      | some env =>
        match env.get ("revoked:" ++ payload.jti) with
        | .ok v => if pyTruthy v then none else some payload
        | .error _ => some payload  -- continue validation if the check fails

/-! ## Token creation
`create_access_token` / `create_refresh_token` in
`security/middleware.py` (lines 320–356).  The fresh `jti` (a sha256
hexdigest, 64 hex characters) and the HMAC signature bytes are taken
as parameters; `jwt.encode` is modelled at its interface: the compact
serialization `b64url(header).b64url(payload).b64url(signature)` with
the claims dict serialized in insertion order. -/

def ACCESS_TOKEN_EXPIRE : Nat := 15
def REFRESH_TOKEN_EXPIRE : Nat := 7

/-- `json.dumps` of the claims dict built in `create_access_token` /
`create_refresh_token`, in insertion order, compact separators;
`exp`/`iat` datetimes appear as integer timestamps.  `sub` and
`user_id` (emails and uuids) need no JSON escaping. -/
def payloadJson (sub jti ty uid : String) (exp iat : Nat) : String :=
  "\x7b\"sub\":\"" ++ sub ++ "\",\"jti\":\"" ++ jti ++ "\",\"type\":\"" ++ ty ++
    "\",\"user_id\":\"" ++ uid ++ "\",\"exp\":" ++ natRepr exp ++
    ",\"iat\":" ++ natRepr iat ++ "\x7d"

def jwtHeaderJson : String := "\x7b\"alg\":\"HS256\",\"typ\":\"JWT\"\x7d"

def jwtEncode (payload : String) (sig : List Nat) : String :=
  b64urlStr (strBytes jwtHeaderJson) ++ "." ++ b64urlStr (strBytes payload) ++
    "." ++ b64urlStr sig

def create_access_token (subject user_id jti : String) (now : Nat)
    (sig : List Nat) : String :=
  jwtEncode (payloadJson subject jti "access" user_id
    (now + ACCESS_TOKEN_EXPIRE * 60) now) sig

def create_refresh_token (subject user_id jti : String) (now : Nat)
    (sig : List Nat) : String :=
  jwtEncode (payloadJson subject jti "refresh" user_id
    (now + REFRESH_TOKEN_EXPIRE * 86400) now) sig

/-- `token.split(".")[1]` as used in `register`, `login` and `refresh`
(`main.py` lines 302, 342, 403) to obtain the value stored as the
record's `jti`.  Every encoded JWT has two dots, so index 1 exists. -/
def tokenSecondSegment (t : String) : String :=
  ⟨(pySplit '.' t.data).getD 1 []⟩

/-! ## Auth service state and operations
`backend/auth_service/main.py`.  MongoDB collections are lists in
insertion order (`find_one` returns the first match, `insert_one`
appends, `delete_one` removes the first match). -/

structure TokenRec where
  token : String
  jti : String
  user_id : String
  created_at : Nat
  expires_at : Nat
deriving DecidableEq, Repr

structure UserRec where
  id : String
  name : String
  email : String
  password : String
  created_at : Nat
  updated_at : Nat
deriving DecidableEq, Repr

structure UserResponse where
  id : String
  name : String
  email : String
  created_at : Nat
  updated_at : Nat
deriving DecidableEq, Repr

/-- `format_user_response`. -/
def formatUserResponse (u : UserRec) : UserResponse :=
  ⟨u.id, u.name, u.email, u.created_at, u.updated_at⟩

structure TokenResponseM where
  access_token : String
  refresh_token : String
  token_type : String
  user : UserResponse
deriving DecidableEq, Repr

/-- `store_refresh_token` (lines 165–183): insert the Mongo record,
then write the fast-lookup Redis entry `refresh:{jti} -> user_id` with
a 7-day TTL.  The Mongo insert precedes the Redis write, so on a Redis
error the record is nevertheless persisted. -/
def storeRefreshToken (env : RedisEnv) (tokens : List TokenRec)
    (user_id token jti : String) (now : Nat) :
    Except Unit RedisEnv × List TokenRec :=
  let tokens2 := tokens ++ [⟨token, jti, user_id, now, now + 7 * 86400⟩]
  (env.setEx ("refresh:" ++ jti) user_id (7 * 24 * 60 * 60), tokens2)

/-- `revoke_token` (lines 186–196): write `revoked:{jti} -> "1"` with a
24h TTL, then delete the Mongo record with that `jti`.  No local
`try`, so a Redis error propagates before the delete happens. -/
def revokeToken (env : RedisEnv) (tokens : List TokenRec) (jti : String) :
    Except Unit (RedisEnv × List TokenRec) :=
  match env.setEx ("revoked:" ++ jti) "1" (24 * 60 * 60) with
  | .error e => .error e
  | .ok env2 => .ok (env2, tokens.eraseP (fun r => r.jti = jti))

/-- The `/refresh` endpoint (lines 355–420).  The fresh token material
(`accessJti`, `refreshJti`, signatures, clock) is passed in.  Errors
carry the HTTP status (always 401 here: the endpoint's `except` wraps
every failure, including Redis errors during revocation/storage, into
a 401).  The Mongo and Redis states after the call are returned
alongside the outcome. -/
def refreshEndpoint (tokens : List TokenRec) (users : List UserRec)
    (env : RedisEnv) (refresh_token : String)
    (accessJti refreshJti : String) (now : Nat) (sigA sigR : List Nat) :
    Except Nat TokenResponseM × List TokenRec × RedisEnv :=
  match tokens.find? (fun r => r.token = refresh_token) with
  | none => (.error 401, tokens, env)
  | some tokenRecord =>
    match users.find? (fun u => u.id = tokenRecord.user_id) with
    | none =>
      -- Token refers to deleted user: purge all of that user's tokens
      (.error 401, tokens.filter (fun r => ¬ r.user_id = tokenRecord.user_id),
        env)
    | some user =>
      let access := create_access_token user.email tokenRecord.user_id
        accessJti now sigA
      let newRefresh := create_refresh_token user.email tokenRecord.user_id
        refreshJti now sigR
      -- Revoke old refresh token
      match revokeToken env tokens tokenRecord.jti with
      | .error _ => (.error 401, tokens, env)
      | .ok (env2, tokens2) =>
        -- Store new refresh token under token.split(".")[1]
        let r := storeRefreshToken env2 tokens2 tokenRecord.user_id
          newRefresh (tokenSecondSegment newRefresh) now
        match r.1 with
        | .error _ => (.error 401, r.2, env2)
        | .ok env3 =>
          (.ok ⟨access, newRefresh, "bearer", formatUserResponse user⟩,
            r.2, env3)

/-! ## Tool dispatch
The tool-call loop of `process_query` in `backend/llm_service/main.py`
(lines 1028–1174).  Each of the six branches has the same shape:
append the tool's label to `tools_used`, perform the collaborator HTTP
call, and on a 200 response fold a branch-specific text block into
`content`; the per-call `except` folds any raised exception into
`content` as an error note.  Collaborator calls are abstracted as an
`Except`-valued function returning the HTTP status and the parsed JSON
body (a dict read with `.get` and defaults, modelled as a structure
with default fields). -/

structure SearchItem where
  title : Option String := none
  link : Option String := none
  snippet : Option String := none
deriving DecidableEq, Repr

structure RespBody where
  results : List SearchItem := []  -- `search_results.get("results")`
  success : Bool := false          -- `scrape_result.get("success")`
  content : String := ""           -- `scrape_result.get("content", "")`
  analysis : String := ""          -- `analysis_result.get("analysis", "")`
  image : String := ""             -- `image_result.get("image", "")`
deriving DecidableEq, Repr

/-- Parsed `arguments` dict of a tool call (`.get` with defaults at
the use sites). -/
structure ToolArgs where
  recipient : Option String := none
  message : Option String := none
  url : Option String := none
  prompt : Option String := none
  image_url : Option String := none
deriving DecidableEq, Repr

/-- A model-declared tool call: the function name and the result of
`json.loads(arguments_json)` (`.error msg` = the parse raised). -/
structure ToolCall where
  name : String
  args : Except String ToolArgs
deriving Repr

/-- Label appended to `tools_used` in each branch. -/
def toolLabel : String → Option String
  | "search_web" => some "web-search"
  | "scrape_webpage" => some "web-scrape"
  | "send_sms" => some "sms"
  | "make_call" => some "call"
  | "generate_image" => some "image-generation"
  | "analyze_image" => some "image-analysis"
  | _ => none

/-- The `if content: content += "\n\n" + t else: content = t` pattern
shared by every fold site. -/
def pyAppendContent (content t : String) : String :=
  if content = "" then t else content ++ "\n\n" ++ t

/-- The enumerated search-result lines of `results_text`. -/
def searchItemsText (i : Nat) : List SearchItem → String
  | [] => ""
  | r :: rest =>
    natRepr i ++ ". [" ++ r.title.getD "Untitled" ++ "](" ++
      r.link.getD "" ++ ")\n" ++ "   " ++ r.snippet.getD "" ++ "\n\n" ++
      searchItemsText (i + 1) rest

/-- Python `str(None)` for an absent `.get` result interpolated into
an f-string. -/
def optStr (o : Option String) : String := o.getD "None"

/-- The text block a successful (HTTP 200) collaborator call folds
into `content`, per tool branch. -/
def toolSuccessText (name : String) (args : ToolArgs) (body : RespBody) :
    String :=
  if name = "search_web" then
    "**Search Results:**\n\n" ++
      (if body.results ≠ [] then searchItemsText 1 body.results
       else "No relevant results found.\n")
  else if name = "scrape_webpage" then
    "Extracted from " ++ optStr args.url ++ ":\n" ++
      ⟨body.content.data.take 500⟩ ++ "...\n"
  else if name = "send_sms" then
    "✅ SMS sent to " ++ args.recipient.getD "the recipient" ++
      " with message: '" ++ args.message.getD "" ++ "'."
  else if name = "make_call" then
    "✅ Call initiated to " ++ args.recipient.getD "the recipient" ++
      " with message: '" ++ args.message.getD "" ++ "'."
  else if name = "generate_image" then
    "I've created an image based on your description:\n\n![Generated Image of "
      ++ args.prompt.getD "the requested image" ++ "](" ++ body.image ++ ")"
  else  -- analyze_image
    "Image Analysis:\n" ++ body.analysis

/-- The scrape branch folds its block only when
`scrape_result.get("success")` is truthy; every other branch folds on
any 200 response. -/
def branchFolds (name : String) (body : RespBody) : Bool :=
  if name = "scrape_webpage" then body.success else true

/-- One iteration of the tool-call loop: the `try` body (JSON parse,
label append, collaborator call, 200-gated fold) with the `except`
that folds `Error processing {name}: {e}` into the content. -/
def runToolCall (collab : ToolCall → Except String (Nat × RespBody))
    (state : String × List String) (tc : ToolCall) : String × List String :=
  let (content, tools) := state
  match tc.args with
  | .error e =>
    (pyAppendContent content ("Error processing " ++ tc.name ++ ": " ++ e),
      tools)
  | .ok args =>
    match toolLabel tc.name with
    | none => (content, tools)  -- no branch matches: the try body is a no-op
    | some lbl =>
      let tools := tools ++ [lbl]
      match collab tc with
      | .error e =>
        (pyAppendContent content
          ("Error processing " ++ tc.name ++ ": " ++ e), tools)
      | .ok (status, body) =>
        if status = 200 ∧ branchFolds tc.name body then
          (pyAppendContent content (toolSuccessText tc.name args body), tools)
        else (content, tools)

/-- The whole tool-call loop over the declared calls, starting from
the model message's `content` and an empty `tools_used`. -/
def runToolCalls (collab : ToolCall → Except String (Nat × RespBody))
    (content0 : String) (calls : List ToolCall) : String × List String :=
  calls.foldl (runToolCall collab) (content0, [])

structure EnvelopeModel where
  message : String
  tools_used : List String
deriving Repr

/-- The post-tool phase of `process_query` for turns whose `tools_used`
does not contain `"web-search"`: the source then skips
`enhance_search_results_formatting` (guarded by
`if "web-search" in tools_used`) and applies `format_table_response`
to the assembled content before building the response envelope. -/
def processToolPhaseNoSearch
    (collab : ToolCall → Except String (Nat × RespBody))
    (content0 : String) (calls : List ToolCall) : EnvelopeModel :=
  let r := runToolCalls collab content0 calls
  ⟨format_table_response r.1, r.2⟩

/-! ## Conversation store
`backend/conversation_service/main.py`, `store_message`
(lines 85–132). -/

structure Msg where
  role : String
  content : String
  timestamp : String
deriving DecidableEq, Repr

structure Conversation where
  thread_id : String
  messages : List Msg
  created_at : Nat
  last_updated : Nat
  title : String
deriving DecidableEq, Repr

/-- Mongo `update_one`: apply `f` to the first document matching the
thread id. -/
def updateFirstConv (db : List Conversation) (tid : String)
    (f : Conversation → Conversation) : List Conversation :=
  match db with
  | [] => []
  | c :: rest =>
    if c.thread_id = tid then f c :: rest
    else c :: updateFirstConv rest tid f

/-- `request.thread_id or f"thread_{uuid.uuid4().hex}"` (Python `or`:
a missing or empty id generates a fresh one). -/
def resolveThreadId (threadId : Option String) (freshHex : String) : String :=
  match threadId with
  | some t => if t = "" then "thread_" ++ freshHex else t
  | none => "thread_" ++ freshHex

/-- `store_message`: resolve the thread id, append the user message,
and answer with the thread id and `history[-10:]`.  Returns
`((thread_id, returned history), new collection)`. -/
def storeMessage (db : List Conversation) (threadId : Option String)
    (freshHex : String) (message : String) (nowIso : String) (now : Nat) :
    (String × List Msg) × List Conversation :=
  let tid := resolveThreadId threadId freshHex
  let userMsg : Msg := ⟨"user", message, nowIso⟩
  match db.find? (fun c => c.thread_id = tid) with
  | some conversation =>
    let history := conversation.messages ++ [userMsg]
    let db2 := updateFirstConv db tid
      (fun c => { c with messages := c.messages ++ [userMsg],
                         last_updated := now })
    ((tid, pyLastN 10 history), db2)
  | none =>
    let history := [userMsg]
    let db2 := db ++ [⟨tid, history, now, now, ⟨message.data.take 50⟩⟩]
    ((tid, pyLastN 10 history), db2)

end WebRag

/-! ## Helper lemmas -/

namespace WebRag

theorem digVal_digChar : ∀ d, d < 10 → digVal? (digChar d) = some d := by decide

theorem decRevCharsAux_ne_nil (fuel n : Nat) : decRevCharsAux fuel n ≠ [] := by
  cases fuel with
  | zero => simp [decRevCharsAux]
  | succ f =>
    rw [decRevCharsAux]
    split <;> simp

theorem decRevChars_ne_nil (n : Nat) : decRevChars n ≠ [] :=
  decRevCharsAux_ne_nil n n

theorem decFoldRevAux (fuel : Nat) : ∀ n, n ≤ fuel →
    (decRevCharsAux fuel n).reverse.foldl decStep (some 0) = some n := by
  induction fuel with
  | zero =>
    intro n hn
    have : n = 0 := by omega
    subst this
    decide
  | succ f ih =>
    intro n hn
    rw [decRevCharsAux]
    split
    · next h =>
      simp [decStep, digVal_digChar n h]
    · next h =>
      rw [List.reverse_cons, List.foldl_append]
      rw [ih (n / 10) (by omega)]
      simp only [List.foldl_cons, List.foldl_nil, decStep, Option.bind_some]
      rw [digVal_digChar (n % 10) (Nat.mod_lt _ (by omega))]
      have hdm : n / 10 * 10 + n % 10 = n := by omega
      simp [hdm]

theorem decFoldRev (n : Nat) :
    (decRevChars n).reverse.foldl decStep (some 0) = some n :=
  decFoldRevAux n n (Nat.le_refl n)

theorem pyInt_natRepr (n : Nat) : pyInt (natRepr n) = some n := by
  unfold pyInt natRepr
  rw [if_neg (by simp [decRevChars_ne_nil])]
  exact decFoldRev n

theorem natRepr_ne_empty (n : Nat) : natRepr n ≠ "" := by
  unfold natRepr
  intro h
  have := congrArg String.data h
  simp [decRevChars_ne_nil] at this

theorem b64Char_ne_dot : ∀ n, n < 64 → b64Char n ≠ '.' := by decide

theorem b64urlEncode_no_dot (bs : List Nat) : '.' ∉ b64urlEncode bs := by
  induction bs using b64urlEncode.induct with
  | case1 => simp [b64urlEncode]
  | case2 a =>
    simp only [b64urlEncode, List.mem_cons, List.not_mem_nil, or_false]
    push_neg
    refine ⟨?_, ?_⟩
    · exact fun h => b64Char_ne_dot _ (Nat.mod_lt _ (by omega)) h.symm
    · exact fun h => b64Char_ne_dot _ (by omega) h.symm
  | case3 a b =>
    simp only [b64urlEncode, List.mem_cons, List.not_mem_nil, or_false]
    push_neg
    refine ⟨?_, ?_, ?_⟩
    · exact fun h => b64Char_ne_dot _ (Nat.mod_lt _ (by omega)) h.symm
    · exact fun h => b64Char_ne_dot _ (by omega) h.symm
    · exact fun h => b64Char_ne_dot _ (by omega) h.symm
  | case4 a b c rest ih =>
    simp only [b64urlEncode, List.mem_cons]
    push_neg
    refine ⟨?_, ?_, ?_, ?_, ih⟩
    · exact fun h => b64Char_ne_dot _ (Nat.mod_lt _ (by omega)) h.symm
    · exact fun h => b64Char_ne_dot _ (by omega) h.symm
    · exact fun h => b64Char_ne_dot _ (by omega) h.symm
    · exact fun h => b64Char_ne_dot _ (Nat.mod_lt _ (by omega)) h.symm

theorem b64urlEncode_length_ge (bs : List Nat) :
    bs.length ≤ (b64urlEncode bs).length := by
  induction bs using b64urlEncode.induct with
  | case1 => simp [b64urlEncode]
  | case2 a => simp [b64urlEncode]
  | case3 a b => simp [b64urlEncode]
  | case4 a b c rest ih =>
    simp only [b64urlEncode, List.length_cons]
    omega

/-! ### Store lemmas -/

theorem lookup_setKey_self (st : FWStore) (k v : String) (t : Option Nat) :
    (st.setKey k v t).lookup k = some v := by
  simp [FWStore.lookup, FWStore.setKey, List.find?]

theorem find?_filter_ne {l : List KVEntry} {k k' : String} (h : k' ≠ k) :
    (l.filter (fun e => e.key ≠ k)).find? (fun e => e.key = k') =
      l.find? (fun e => e.key = k') := by
  induction l with
  | nil => rfl
  | cons e rest ih =>
    by_cases he : e.key = k
    · rw [List.filter_cons_of_neg (by simp [he])]
      rw [ih, List.find?_cons_of_neg _ (by simp [he]; exact fun hk => h hk.symm)]
    · rw [List.filter_cons_of_pos (by simp [he])]
      by_cases he' : e.key = k'
      · rw [List.find?_cons_of_pos _ (by simp [he']),
          List.find?_cons_of_pos _ (by simp [he'])]
      · rw [List.find?_cons_of_neg _ (by simp [he']),
          List.find?_cons_of_neg _ (by simp [he']), ih]

theorem lookup_setKey_ne (st : FWStore) (k v : String) (t : Option Nat)
    (k' : String) (h : k' ≠ k) :
    (st.setKey k v t).lookup k' = st.lookup k' := by
  unfold FWStore.lookup FWStore.setKey
  rw [List.find?_cons_of_neg _ (by simp [h.symm]), find?_filter_ne h]

/-- The first characters of the middleware's key families differ, so
the families never collide. -/
theorem rate_key_ne_block_key (a b : String) :
    "rate:" ++ a ≠ "block:" ++ b := by
  intro h
  have h2 := congrArg String.data h
  rw [String.data_append, String.data_append] at h2
  have ha : ("rate:" : String).data = ['r', 'a', 't', 'e', ':'] := rfl
  have hb : ("block:" : String).data = ['b', 'l', 'o', 'c', 'k', ':'] := rfl
  rw [ha, hb] at h2
  simp at h2

theorem revoked_key_ne_refresh_key (a b : String) :
    "revoked:" ++ a ≠ "refresh:" ++ b := by
  intro h
  have h2 := congrArg String.data h
  rw [String.data_append, String.data_append] at h2
  have ha : ("revoked:" : String).data =
    ['r', 'e', 'v', 'o', 'k', 'e', 'd', ':'] := rfl
  have hb : ("refresh:" : String).data =
    ['r', 'e', 'f', 'r', 'e', 's', 'h', ':'] := rfl
  rw [ha, hb] at h2
  simp at h2

theorem string_append_right_ne (a : String) {b c : String} (h : b ≠ c) :
    a ++ b ≠ a ++ c := by
  intro he
  apply h
  have h2 := congrArg String.data he
  rw [String.data_append, String.data_append] at h2
  have h3 := List.append_cancel_left h2
  cases b; cases c
  subst h3
  rfl

/-! ### JWT segment lemmas -/

theorem pySplitAux_no_sep (sep : Char) (z acc : List Char)
    (h : sep ∉ z) : pySplitAux sep z acc = [acc.reverse ++ z] := by
  induction z generalizing acc with
  | nil => simp [pySplitAux]
  | cons c rest ih =>
    have hc : ¬ c = sep := fun hc => h (hc ▸ List.mem_cons_self c rest)
    rw [pySplitAux, if_neg hc, ih _ (fun hm => h (List.mem_cons_of_mem c hm))]
    simp

theorem pySplitAux_append_sep (sep : Char) (x r acc : List Char)
    (h : sep ∉ x) :
    pySplitAux sep (x ++ sep :: r) acc =
      (acc.reverse ++ x) :: pySplitAux sep r [] := by
  induction x generalizing acc with
  | nil => simp [pySplitAux]
  | cons c rest ih =>
    have hc : ¬ c = sep := fun hc => h (hc ▸ List.mem_cons_self c rest)
    rw [List.cons_append, pySplitAux, if_neg hc,
      ih _ (fun hm => h (List.mem_cons_of_mem c hm))]
    simp

theorem pySplit_three (sep : Char) (x y z : List Char)
    (hx : sep ∉ x) (hy : sep ∉ y) (hz : sep ∉ z) :
    pySplit sep (x ++ sep :: (y ++ sep :: z)) = [x, y, z] := by
  unfold pySplit
  rw [pySplitAux_append_sep sep x _ [] hx,
    pySplitAux_append_sep sep y _ [] hy,
    pySplitAux_no_sep sep z [] hz]
  simp

theorem tokenSecondSegment_jwtEncode (p : String) (sig : List Nat) :
    tokenSecondSegment (jwtEncode p sig) = b64urlStr (strBytes p) := by
  unfold tokenSecondSegment jwtEncode
  have hdata : (b64urlStr (strBytes jwtHeaderJson) ++ "." ++
      b64urlStr (strBytes p) ++ "." ++ b64urlStr sig).data =
      b64urlEncode (strBytes jwtHeaderJson) ++ '.' ::
        (b64urlEncode (strBytes p) ++ '.' :: b64urlEncode sig) := by
    simp [String.data_append, b64urlStr]
  rw [hdata, pySplit_three '.' _ _ _ (b64urlEncode_no_dot _)
    (b64urlEncode_no_dot _) (b64urlEncode_no_dot _)]
  rfl

/-- The second JWT segment is at least as long as the serialized
payload, which contains the 64-character `jti` claim and the fixed
JSON skeleton, so it can never equal the `jti` claim itself. -/
theorem tokenSecondSegment_length_ge (p : String) (sig : List Nat) :
    p.length ≤ (tokenSecondSegment (jwtEncode p sig)).length := by
  rw [tokenSecondSegment_jwtEncode]
  show p.length ≤ (String.mk (b64urlEncode (strBytes p))).length
  rw [String.length_mk]
  calc p.length = (strBytes p).length := by
        unfold strBytes
        rw [List.length_map]
        rfl
    _ ≤ _ := b64urlEncode_length_ge _

theorem payloadJson_length_gt (sub jti ty uid : String) (e i : Nat)
    (hjti : jti.length = 64) : 64 < (payloadJson sub jti ty uid e i).length := by
  unfold payloadJson
  simp only [String.length_append]
  have hx : ("\x7d" : String).length = 1 := rfl
  omega

/-! ### List bookkeeping lemmas -/

theorem eraseP_not_mem_of_unique {α : Type} [DecidableEq α] {l : List α}
    {a : α} {p : α → Bool} (hnd : l.Nodup) (hp : p a = true)
    (huniq : ∀ b ∈ l, p b = true → b = a) : a ∉ l.eraseP p := by
  induction l with
  | nil => simp
  | cons b rest ih =>
    rcases List.nodup_cons.mp hnd with ⟨hb, hrest⟩
    by_cases hpb : p b = true
    · have hba : b = a := huniq b (by simp) hpb
      rw [List.eraseP_cons_of_pos hpb]
      subst hba
      exact hb
    · rw [List.eraseP_cons_of_neg (by simp [hpb])]
      intro hmem
      rcases List.mem_cons.mp hmem with h | h
      · exact hpb (h ▸ hp)
      · exact ih hrest (fun c hc hpc => huniq c (List.mem_cons_of_mem _ hc) hpc) h

theorem updateFirstConv_find (db : List Conversation) (tid : String)
    (f : Conversation → Conversation) (conv : Conversation)
    (hfind : db.find? (fun c => c.thread_id = tid) = some conv)
    (hf : (f conv).thread_id = conv.thread_id) :
    (updateFirstConv db tid f).find? (fun c => c.thread_id = tid) =
      some (f conv) := by
  induction db with
  | nil => simp at hfind
  | cons c rest ih =>
    by_cases hc : c.thread_id = tid
    · rw [List.find?_cons_of_pos _ (by simp [hc])] at hfind
      injection hfind with hconv
      subst hconv
      unfold updateFirstConv
      rw [if_pos hc, List.find?_cons_of_pos _ (by simp [hf, hc])]
    · rw [List.find?_cons_of_neg _ (by simp [hc])] at hfind
      unfold updateFirstConv
      rw [if_neg hc, List.find?_cons_of_neg _ (by simp [hc])]
      exact ih hfind

theorem length_pyLastN_le {α : Type} (n : Nat) (l : List α) :
    (pyLastN n l).length ≤ n := by
  unfold pyLastN
  rw [List.length_drop]
  omega

theorem pyLastN_suffix {α : Type} (n : Nat) (l : List α) :
    pyLastN n l <:+ l :=
  List.drop_suffix _ _

theorem mem_pyLastN_append_last {α : Type} (n : Nat) (hn : 0 < n)
    (xs : List α) (m : α) : m ∈ pyLastN n (xs ++ [m]) := by
  unfold pyLastN
  rw [List.drop_append_of_le_length (by simp; omega)]
  simp

/-! ### Table formatter lemmas -/

theorem pySplitAux_ne_nil (c : Char) (s acc : List Char) :
    pySplitAux c s acc ≠ [] := by
  induction s generalizing acc with
  | nil => simp [pySplitAux]
  | cons a rest ih =>
    simp only [pySplitAux]
    split
    · simp
    · exact ih _

theorem pyJoinStr_pySplitAux (c : Char) (s acc : List Char) :
    pyJoinStr [c] (pySplitAux c s acc) = acc.reverse ++ s := by
  induction s generalizing acc with
  | nil => simp [pySplitAux, pyJoinStr]
  | cons a rest ih =>
    simp only [pySplitAux]
    by_cases h : a = c
    · subst h
      simp only [if_pos rfl]
      rcases hne : pySplitAux a rest [] with _ | ⟨p, ps⟩
      · exact absurd hne (pySplitAux_ne_nil a rest [])
      · simp only [pyJoinStr]
        rw [← hne, ih]
        simp
    · rw [if_neg h, ih]
      simp

theorem pyJoinStr_pySplit (c : Char) (s : List Char) :
    pyJoinStr [c] (pySplit c s) = s := by
  simpa using pyJoinStr_pySplitAux c s []

theorem ftrLoop_id (lines : List (List Char))
    (h : ∀ l ∈ lines, isTableLine l = false) :
    ftrLoop lines none = lines := by
  induction lines with
  | nil => rfl
  | cons l rest ih =>
    have hl : isTableLine l = false := h l (by simp)
    rw [ftrLoop, if_neg (by simp [hl])]
    rw [ih (fun l hl2 => h l (by simp [hl2]))]

theorem format_table_response_no_pipe (text : String)
    (h : hasPipe text.data = false) : format_table_response text = text := by
  unfold format_table_response
  rw [if_pos (by simp [h])]

/-- An error note produced by the tool loop is never the empty
string. -/
theorem errNote_ne_empty (nm e : String) :
    ("Error processing " ++ nm ++ ": " ++ e) ≠ "" := by
  intro h
  have hlen := congrArg String.length h
  simp only [String.length_append] at hlen
  have h17 : ("Error processing " : String).length = 17 := rfl
  have h0 : ("" : String).length = 0 := rfl
  omega

end WebRag

/-- C8 counterexample: on the well-formed two-column markdown table
`"| a | b |\n|---|---|\n| 1 | 2 |"`, applying `format_table_response`
twice does not equal applying it once (each pass inserts an extra
`|---|---|---|` separator row), so the formatter is not idempotent on
already-well-formed tables. -/
theorem C8_not_idempotent_counterexample :
    WebRag.format_table_response
        (WebRag.format_table_response "| a | b |\n|---|---|\n| 1 | 2 |") ≠
      WebRag.format_table_response "| a | b |\n|---|---|\n| 1 | 2 |" := by
  decide

/-- C8 (amended): `format_table_response` is the identity — and hence
idempotent — exactly on texts in which it collects no table block:
whenever every line either contains `---` or has at most two `|`
characters (in particular pipe-free text and well-formed single-column
tables), one application leaves the text unchanged and a second
application changes nothing.  On well-formed tables with two or more
columns the formatter is not idempotent. -/
theorem C8_identity_on_untabled_text (text : String)
    (h : ∀ l ∈ WebRag.pySplit '\n' text.data, WebRag.isTableLine l = false) :
    WebRag.format_table_response text = text ∧
      WebRag.format_table_response (WebRag.format_table_response text) =
        WebRag.format_table_response text := by
  have hid : WebRag.format_table_response text = text := by
    unfold WebRag.format_table_response
    split
    · rfl
    · rw [WebRag.ftrLoop_id _ h, WebRag.pyJoinStr_pySplit]
  exact ⟨hid, by rw [hid, hid]⟩

/-- Witness for `C8_identity_on_untabled_text` at the well-formed
single-column table `"| a |\n|---|\n| 1 |"`. -/
theorem C8_identity_on_untabled_text_witness :
    (∀ l ∈ WebRag.pySplit '\n' ("| a |\n|---|\n| 1 |" : String).data,
        WebRag.isTableLine l = false) ∧
      WebRag.format_table_response "| a |\n|---|\n| 1 |" =
        "| a |\n|---|\n| 1 |" :=
  ⟨by decide, (C8_identity_on_untabled_text _ (by decide)).1⟩

/-- C9: the phone normalizer maps local-format UK mobile numbers and
00-prefixed international numbers to E.164 and leaves +-prefixed
numbers unchanged. -/
theorem C9_phone_normalization :
    WebRag.format_phone_number "07911123456" = "+447911123456" ∧
    WebRag.format_phone_number "+15551234567" = "+15551234567" ∧
    WebRag.format_phone_number "00447911123456" = "+447911123456" := by
  refine ⟨?_, ?_, ?_⟩ <;> rfl

/-- C1: once `revoke_token` is called with an access token's `jti`
(writing `revoked:{jti}` to the revocation set), the middleware's
`_validate_token` rejects that token (returns no claims, hence the 401
path) even though signature and expiry verification succeed
(`decoded = .ok c`). -/
theorem C1_revoked_token_never_validates
    (env : WebRag.RedisEnv) (tokens : List WebRag.TokenRec)
    (c : WebRag.Claims) (out : WebRag.RedisEnv × List WebRag.TokenRec)
    (hreach : env.reachable = true)
    (hrevoke : WebRag.revokeToken env tokens c.jti = .ok out) :
    WebRag.validateToken (some out.1) (.ok c) = none := by
  unfold WebRag.revokeToken at hrevoke
  rw [WebRag.RedisEnv.setEx, if_pos (by simp [hreach])] at hrevoke
  injection hrevoke with h
  subst h
  simp only [WebRag.validateToken]
  by_cases hty : c.type ≠ "access"
  · rw [if_pos hty]
  · rw [if_neg hty]
    by_cases hjti : c.jti = ""
    · rw [if_pos hjti]
    · rw [if_neg hjti]
      have hget : (WebRag.RedisEnv.mk
          (env.store.setKey ("revoked:" ++ c.jti) "1" (some (24 * 60 * 60)))
          true).get ("revoked:" ++ c.jti) = .ok (some "1") := by
        rw [WebRag.RedisEnv.get, if_pos rfl, WebRag.lookup_setKey_self]
      rw [hget]
      simp [WebRag.pyTruthy]

/-- Witness for `C1_revoked_token_never_validates`: a concrete access
token revoked in an empty reachable store no longer validates. -/
theorem C1_revoked_token_never_validates_witness :
    (WebRag.RedisEnv.mk ⟨[]⟩ true).reachable = true ∧
      WebRag.validateToken
        (some (⟨⟨[⟨"revoked:j1", "1", some 86400⟩]⟩, true⟩ : WebRag.RedisEnv))
        (.ok ⟨"a@b.c", "j1", "access", "u1", 1000, 0⟩) = none :=
  ⟨rfl, C1_revoked_token_never_validates ⟨⟨[]⟩, true⟩ []
    ⟨"a@b.c", "j1", "access", "u1", 1000, 0⟩
    (⟨⟨[⟨"revoked:j1", "1", some 86400⟩]⟩, true⟩, []) rfl rfl⟩

/-- C5: rate limiting fails open.  With no Redis client configured the
gate admits immediately; with an unreachable store (every operation
raises) the `except` handlers swallow the errors and the check returns
`true`, so the request is allowed through. -/
theorem C5_rate_limit_fails_open (xff : Option String) (host path : String)
    (limit : Nat) (env : WebRag.RedisEnv)
    (hdown : env.reachable = false) :
    (WebRag.checkRateLimit none xff host path limit).1 = true ∧
      (WebRag.checkRateLimitSome env xff host path limit).1 = true := by
  constructor
  · rfl
  · simp [WebRag.checkRateLimitSome, WebRag.RedisEnv.get, hdown]

/-- Witness for `C5_rate_limit_fails_open` at a concrete unreachable
store. -/
theorem C5_rate_limit_fails_open_witness :
    (WebRag.RedisEnv.mk ⟨[]⟩ false).reachable = false ∧
      (WebRag.checkRateLimit none (some "1.2.3.4") "h" "/api/auth/login"
        5).1 = true ∧
      (WebRag.checkRateLimitSome ⟨⟨[]⟩, false⟩ (some "1.2.3.4") "h"
        "/api/auth/login" 5).1 = true :=
  ⟨rfl, (C5_rate_limit_fails_open (some "1.2.3.4") "h" "/api/auth/login" 5
      ⟨⟨[]⟩, false⟩ rfl).1,
    (C5_rate_limit_fails_open (some "1.2.3.4") "h" "/api/auth/login" 5
      ⟨⟨[]⟩, false⟩ rfl).2⟩

/-- C6 counterexample: a POST to a non-exempt route carrying an empty
`X-CSRF-Token` header and an empty `csrf_token` cookie has both tokens
present and byte-equal, yet the middleware rejects it with 403 (the
falsy check `if not header_token` treats `""` as missing) — so "the
CSRF gate passes exactly when both are present and equal" is false as
stated. -/
theorem C6_empty_token_counterexample :
    WebRag.csrfGate403 "/api/chat/" "POST" (some "") (some "") = true ∧
      some "" = some "" := by
  exact ⟨by decide, rfl⟩

/-- C6 (amended): for every state-changing method on a route outside
the CSRF-exempt list, the middleware rejects with 403 whenever the
header token and cookie token differ or either is absent, and the gate
passes exactly when both are present, equal, and nonempty (an empty
token counts as absent). -/
theorem C6_csrf_double_submit (path method : String)
    (header cookie : Option String)
    (hpath : ¬ path ∈ WebRag.SKIP_CSRF_PATHS)
    (hmethod : method ∈ WebRag.STATE_CHANGING_METHODS) :
    ((header = none ∨ cookie = none ∨ header ≠ cookie) →
      WebRag.csrfGate403 path method header cookie = true) ∧
    (WebRag.csrfGate403 path method header cookie = false ↔
      ∃ t, t ≠ "" ∧ header = some t ∧ cookie = some t) := by
  have hvalid : ∀ b : Bool,
      WebRag.validateCsrfToken header cookie = b →
      WebRag.csrfGate403 path method header cookie = !b := by
    intro b hb
    unfold WebRag.csrfGate403
    cases b <;> simp [hpath, hmethod, hb]
  constructor
  · intro hcase
    have : WebRag.validateCsrfToken header cookie = false := by
      unfold WebRag.validateCsrfToken
      rcases hcase with h | h | h
      · subst h; rfl
      · subst h
        cases header with
        | none => rfl
        | some t => by_cases ht : t = "" <;> simp [WebRag.pyTruthy, ht]
      · cases header with
        | none => rfl
        | some t =>
          cases cookie with
          | none => by_cases ht : t = "" <;> simp [WebRag.pyTruthy, ht]
          | some u =>
            by_cases ht : t = "" <;> by_cases hu : u = "" <;>
              simp [WebRag.pyTruthy, ht, hu] <;>
              exact fun he => h (by rw [he])
    simpa using hvalid false this
  · constructor
    · intro hfalse
      have : WebRag.validateCsrfToken header cookie = true := by
        by_contra hne
        have := hvalid false (Bool.not_eq_true _ ▸ Bool.eq_false_iff.mpr hne)
        rw [hfalse] at this
        simp at this
      unfold WebRag.validateCsrfToken at this
      cases header with
      | none => simp [WebRag.pyTruthy] at this
      | some t =>
        cases cookie with
        | none =>
          by_cases ht : t = "" <;> simp [WebRag.pyTruthy, ht] at this
        | some u =>
          by_cases ht : t = "" <;> by_cases hu : u = "" <;>
            simp [WebRag.pyTruthy, ht, hu] at this
          · exact ⟨t, ht, rfl, by rw [this]⟩
    · rintro ⟨t, ht, hh, hc⟩
      subst hh; subst hc
      have : WebRag.validateCsrfToken (some t) (some t) = true := by
        unfold WebRag.validateCsrfToken
        simp [WebRag.pyTruthy, ht]
      simpa using hvalid true this

/-- Witness for `C6_csrf_double_submit`: concrete POST to `/api/chat/`
with matching nonempty tokens passes; with mismatched tokens it is
rejected. -/
theorem C6_csrf_double_submit_witness :
    (¬ "/api/chat/" ∈ WebRag.SKIP_CSRF_PATHS) ∧
      ("POST" ∈ WebRag.STATE_CHANGING_METHODS) ∧
      WebRag.csrfGate403 "/api/chat/" "POST" (some "tok") (some "nope") =
        true :=
  ⟨by decide, by decide,
    (C6_csrf_double_submit "/api/chat/" "POST" (some "tok") (some "nope")
      (by decide) (by decide)).1 (Or.inr (Or.inr (by simp)))⟩

/-- C10: for a `store` call on an existing thread, the returned
`history` holds at most the 10 most recent messages — it is a suffix of
the thread's full log including the just-appended user message, which
it always contains — while the persisted document keeps the complete
log. -/
theorem C10_store_history_truncated (db : List WebRag.Conversation)
    (threadId : Option String) (freshHex message nowIso : String) (now : Nat)
    (conv : WebRag.Conversation)
    (hfind : db.find?
        (fun c => c.thread_id = WebRag.resolveThreadId threadId freshHex) =
      some conv) :
    let r := WebRag.storeMessage db threadId freshHex message nowIso now
    let userMsg : WebRag.Msg := ⟨"user", message, nowIso⟩
    r.1.2.length ≤ 10 ∧
    r.1.2 <:+ (conv.messages ++ [userMsg]) ∧
    userMsg ∈ r.1.2 ∧
    (r.2.find?
        (fun c => c.thread_id = WebRag.resolveThreadId threadId freshHex) =
      some { conv with messages := conv.messages ++ [userMsg],
                       last_updated := now }) := by
  intro r userMsg
  have hconvtid : conv.thread_id = WebRag.resolveThreadId threadId freshHex := by
    have := List.find?_some hfind
    simpa using this
  have hr : r = ((WebRag.resolveThreadId threadId freshHex,
      WebRag.pyLastN 10 (conv.messages ++ [userMsg])),
      WebRag.updateFirstConv db (WebRag.resolveThreadId threadId freshHex)
        (fun c => { c with messages := c.messages ++ [userMsg],
                           last_updated := now })) := by
    show WebRag.storeMessage db threadId freshHex message nowIso now = _
    simp only [WebRag.storeMessage, hfind]
  rw [hr]
  refine ⟨WebRag.length_pyLastN_le 10 _, WebRag.pyLastN_suffix 10 _,
    WebRag.mem_pyLastN_append_last 10 (by omega) _ _, ?_⟩
  exact WebRag.updateFirstConv_find db _ _ conv hfind (by simp [hconvtid])

/-- Witness for `C10_store_history_truncated`: a concrete thread with
eleven stored messages answers with at most the ten most recent. -/
theorem C10_store_history_truncated_witness :
    (([⟨"t1", (List.range 11).map
          (fun i => ⟨"user", "m", "ts"⟩), 0, 0, "t"⟩] :
        List WebRag.Conversation).find?
        (fun c => c.thread_id = WebRag.resolveThreadId (some "t1") "f") =
      some ⟨"t1", (List.range 11).map
          (fun i => ⟨"user", "m", "ts"⟩), 0, 0, "t"⟩) ∧
    (WebRag.storeMessage
        [⟨"t1", (List.range 11).map
            (fun i => ⟨"user", "m", "ts"⟩), 0, 0, "t"⟩]
        (some "t1") "f" "hello" "ts2" 5).1.2.length ≤ 10 := by
  refine ⟨by decide, ?_⟩
  exact (C10_store_history_truncated
    [⟨"t1", (List.range 11).map (fun i => ⟨"user", "m", "ts"⟩), 0, 0, "t"⟩]
    (some "t1") "f" "hello" "ts2" 5
    ⟨"t1", (List.range 11).map (fun i => ⟨"user", "m", "ts"⟩), 0, 0, "t"⟩
    (by decide)).1

/-- C7: in a turn declaring two tool calls where the first tool's
collaborator call raises and the second succeeds, the per-tool
`except` folds the failure into the content as an inline error note,
the loop continues, and the returned envelope's message contains both
the error note and the other tool's successful result; `tools_used`
records both tools.  (Stated for turns not involving `search_web`, so
the `web-search`-guarded enhancement step of `process_query` does not
apply; the no-pipe hypothesis makes the final `format_table_response`
pass the content through unchanged.) -/
theorem C7_tool_dispatch_isolation
    (collab : WebRag.ToolCall → Except String (Nat × WebRag.RespBody))
    (c1 c2 : WebRag.ToolCall) (a1 a2 : WebRag.ToolArgs) (e : String)
    (body2 : WebRag.RespBody) (l1 l2 : String)
    (h1 : c1.args = .ok a1) (h2 : c2.args = .ok a2)
    (hl1 : WebRag.toolLabel c1.name = some l1)
    (hl2 : WebRag.toolLabel c2.name = some l2)
    (hs1 : c1.name ≠ "search_web") (hs2 : c2.name ≠ "search_web")
    (hc1 : collab c1 = .error e) (hc2 : collab c2 = .ok (200, body2))
    (hfold : WebRag.branchFolds c2.name body2 = true)
    (hnp : WebRag.hasPipe ("Error processing " ++ c1.name ++ ": " ++ e ++
        "\n\n" ++ WebRag.toolSuccessText c2.name a2 body2).data = false) :
    WebRag.processToolPhaseNoSearch collab "" [c1, c2] =
      ⟨"Error processing " ++ c1.name ++ ": " ++ e ++ "\n\n" ++
        WebRag.toolSuccessText c2.name a2 body2, [l1, l2]⟩ ∧
    ("Error processing " ++ c1.name ++ ": " ++ e).data <:+:
      (WebRag.processToolPhaseNoSearch collab "" [c1, c2]).message.data ∧
    (WebRag.toolSuccessText c2.name a2 body2).data <:+:
      (WebRag.processToolPhaseNoSearch collab "" [c1, c2]).message.data := by
  have hnote := WebRag.errNote_ne_empty c1.name e
  have hstep1 : WebRag.runToolCall collab ("", []) c1 =
      ("Error processing " ++ c1.name ++ ": " ++ e, [l1]) := by
    unfold WebRag.runToolCall
    rw [h1, hl1, hc1]
    simp [WebRag.pyAppendContent]
  have hstep2 : WebRag.runToolCall collab
      ("Error processing " ++ c1.name ++ ": " ++ e, [l1]) c2 =
      ("Error processing " ++ c1.name ++ ": " ++ e ++ "\n\n" ++
        WebRag.toolSuccessText c2.name a2 body2, [l1, l2]) := by
    unfold WebRag.runToolCall
    rw [h2, hl2, hc2]
    simp [hfold, WebRag.pyAppendContent, hnote]
  have hrun : WebRag.runToolCalls collab "" [c1, c2] =
      ("Error processing " ++ c1.name ++ ": " ++ e ++ "\n\n" ++
        WebRag.toolSuccessText c2.name a2 body2, [l1, l2]) := by
    unfold WebRag.runToolCalls
    rw [List.foldl_cons, hstep1, List.foldl_cons, hstep2, List.foldl_nil]
  have henv : WebRag.processToolPhaseNoSearch collab "" [c1, c2] =
      ⟨"Error processing " ++ c1.name ++ ": " ++ e ++ "\n\n" ++
        WebRag.toolSuccessText c2.name a2 body2, [l1, l2]⟩ := by
    unfold WebRag.processToolPhaseNoSearch
    rw [hrun]
    simp only
    rw [WebRag.format_table_response_no_pipe _ hnp]
  refine ⟨henv, ?_, ?_⟩
  · rw [henv]
    exact ⟨[], ("\n\n" : String).data ++
      (WebRag.toolSuccessText c2.name a2 body2).data,
      by simp [String.data_append]⟩
  · rw [henv]
    exact ⟨("Error processing " ++ c1.name ++ ": " ++ e).data ++
      ("\n\n" : String).data, [],
      by simp [String.data_append]⟩

/-- Witness for `C7_tool_dispatch_isolation`: a concrete turn with a
failing `send_sms` call and a succeeding `analyze_image` call. -/
theorem C7_tool_dispatch_isolation_witness :
    ((⟨"send_sms", .ok { recipient := some "07911123456", message := some "hi" }⟩ : WebRag.ToolCall).args =
      .ok { recipient := some "07911123456", message := some "hi" }) ∧
    WebRag.processToolPhaseNoSearch
      (fun tc => if tc.name = "send_sms" then .error "boom"
        else .ok (200, { analysis := "A cat." }))
      ""
      [⟨"send_sms", .ok { recipient := some "07911123456", message := some "hi" }⟩,
       ⟨"analyze_image", .ok { image_url := some "http://x/y.png" }⟩] =
      ⟨"Error processing " ++ "send_sms" ++ ": " ++ "boom" ++ "\n\n" ++
        WebRag.toolSuccessText "analyze_image"
          { image_url := some "http://x/y.png" } { analysis := "A cat." },
        ["sms", "image-analysis"]⟩ := by
  refine ⟨rfl, ?_⟩
  exact (C7_tool_dispatch_isolation
    (fun tc => if tc.name = "send_sms" then .error "boom"
      else .ok (200, { analysis := "A cat." }))
    ⟨"send_sms", .ok { recipient := some "07911123456", message := some "hi" }⟩
    ⟨"analyze_image", .ok { image_url := some "http://x/y.png" }⟩
    { recipient := some "07911123456", message := some "hi" }
    { image_url := some "http://x/y.png" }
    "boom" { analysis := "A cat." } "sms" "image-analysis"
    rfl rfl rfl rfl (by decide) (by decide) rfl rfl rfl (by decide)).1

/-- C3: the `jti` persisted with every refresh token — the value
`token.split(".")[1]` computed in `register`, `login` and `refresh`,
and therefore the value later passed to `revoke_token` on rotation and
written as the `revoked:{jti}` key — is the token's second
dot-separated segment, i.e. the base64url-encoded JWT payload, not the
`jti` claim inside the token (a 64-character sha256 hexdigest): the
segment is strictly longer than 64 characters, so the revocation-set
key written on rotation never equals the `revoked:{claim}` key that
`_validate_token` checks. -/
theorem C3_stored_jti_is_payload_segment (sub uid jti : String) (now : Nat)
    (sig : List Nat) (hjti : jti.length = 64) :
    WebRag.tokenSecondSegment
        (WebRag.create_refresh_token sub uid jti now sig) =
      WebRag.b64urlStr (WebRag.strBytes (WebRag.payloadJson sub jti "refresh"
        uid (now + WebRag.REFRESH_TOKEN_EXPIRE * 86400) now)) ∧
    WebRag.tokenSecondSegment
        (WebRag.create_refresh_token sub uid jti now sig) ≠ jti ∧
    ("revoked:" ++ WebRag.tokenSecondSegment
        (WebRag.create_refresh_token sub uid jti now sig) : String) ≠
      "revoked:" ++ jti := by
  have heq := WebRag.tokenSecondSegment_jwtEncode
    (WebRag.payloadJson sub jti "refresh" uid
      (now + WebRag.REFRESH_TOKEN_EXPIRE * 86400) now) sig
  have hlen : 64 <
      (WebRag.tokenSecondSegment
        (WebRag.create_refresh_token sub uid jti now sig)).length := by
    have h1 := WebRag.tokenSecondSegment_length_ge
      (WebRag.payloadJson sub jti "refresh" uid
        (now + WebRag.REFRESH_TOKEN_EXPIRE * 86400) now) sig
    have h2 := WebRag.payloadJson_length_gt sub jti "refresh" uid
      (now + WebRag.REFRESH_TOKEN_EXPIRE * 86400) now hjti
    unfold WebRag.create_refresh_token
    omega
  have hne : WebRag.tokenSecondSegment
      (WebRag.create_refresh_token sub uid jti now sig) ≠ jti := by
    intro h
    rw [h, hjti] at hlen
    omega
  exact ⟨heq, hne, WebRag.string_append_right_ne "revoked:" hne⟩

/-- Witness for `C3_stored_jti_is_payload_segment` at a concrete
64-character `jti`. -/
theorem C3_stored_jti_is_payload_segment_witness :
    (("0123456789abcdef0123456789abcdef0123456789abcdef0123456789abcdef" :
        String).length = 64) ∧
    WebRag.tokenSecondSegment
        (WebRag.create_refresh_token "a@b.c" "u1"
          "0123456789abcdef0123456789abcdef0123456789abcdef0123456789abcdef"
          0 [1, 2, 3]) ≠
      "0123456789abcdef0123456789abcdef0123456789abcdef0123456789abcdef" := by
  refine ⟨by decide, ?_⟩
  exact (C3_stored_jti_is_payload_segment "a@b.c" "u1"
    "0123456789abcdef0123456789abcdef0123456789abcdef0123456789abcdef"
    0 [1, 2, 3] (by decide)).2.1

/-- C2: when `/refresh` succeeds on a stored refresh token `R` —
revoking the stored record's `jti`, deleting the record, and issuing a
new pair — a second `/refresh` with the same token value finds no
record and fails with 401: the old refresh token is single-use.
Hypotheses: the store holds exactly one record for `R` (and record
`jti`s are unique, as produced by `store_refresh_token`), the record's
user exists, Redis is reachable, and the freshly issued refresh token
differs from `R` (fresh `jti`/`iat` give a different payload). -/
theorem C2_refresh_rotation_single_use
    (tokens : List WebRag.TokenRec) (users : List WebRag.UserRec)
    (env : WebRag.RedisEnv) (R : String) (rec : WebRag.TokenRec)
    (user : WebRag.UserRec) (aJ rJ : String) (now : Nat)
    (sigA sigR : List Nat)
    (hfind : tokens.find? (fun r => r.token = R) = some rec)
    (huser : users.find? (fun u => u.id = rec.user_id) = some user)
    (hreach : env.reachable = true)
    (hnodup : tokens.Nodup)
    (hjti : ∀ r ∈ tokens, r.jti = rec.jti → r = rec)
    (huniq : ∀ r ∈ tokens, r.token = R → r = rec)
    (hfresh : WebRag.create_refresh_token user.email rec.user_id rJ now
        sigR ≠ R) :
    (∃ resp, (WebRag.refreshEndpoint tokens users env R aJ rJ now sigA
        sigR).1 = .ok resp) ∧
    ∀ aJ2 rJ2 now2 sigA2 sigR2,
      (WebRag.refreshEndpoint
        (WebRag.refreshEndpoint tokens users env R aJ rJ now sigA sigR).2.1
        users
        (WebRag.refreshEndpoint tokens users env R aJ rJ now sigA sigR).2.2
        R aJ2 rJ2 now2 sigA2 sigR2).1 = .error 401 := by
  have hrev : WebRag.revokeToken env tokens rec.jti =
      .ok (⟨env.store.setKey ("revoked:" ++ rec.jti) "1"
          (some (24 * 60 * 60)), true⟩,
        tokens.eraseP (fun r => r.jti = rec.jti)) := by
    unfold WebRag.revokeToken WebRag.RedisEnv.setEx
    rw [if_pos (by simp [hreach])]
  have hr1 : WebRag.refreshEndpoint tokens users env R aJ rJ now sigA sigR =
      (.ok ⟨WebRag.create_access_token user.email rec.user_id aJ now sigA,
          WebRag.create_refresh_token user.email rec.user_id rJ now sigR,
          "bearer", WebRag.formatUserResponse user⟩,
        tokens.eraseP (fun r => r.jti = rec.jti) ++
          [⟨WebRag.create_refresh_token user.email rec.user_id rJ now sigR,
            WebRag.tokenSecondSegment
              (WebRag.create_refresh_token user.email rec.user_id rJ now
                sigR),
            rec.user_id, now, now + 7 * 86400⟩],
        ⟨((env.store.setKey ("revoked:" ++ rec.jti) "1"
            (some (24 * 60 * 60))).setKey
            ("refresh:" ++ WebRag.tokenSecondSegment
              (WebRag.create_refresh_token user.email rec.user_id rJ now
                sigR))
            rec.user_id (some (7 * 24 * 60 * 60))), true⟩) := by
    simp only [WebRag.refreshEndpoint, hfind, huser, hrev,
      WebRag.storeRefreshToken, WebRag.RedisEnv.setEx]
    simp
  refine ⟨⟨_, by rw [hr1]⟩, ?_⟩
  intro aJ2 rJ2 now2 sigA2 sigR2
  have hrecnotin : rec ∉ tokens.eraseP (fun r => r.jti = rec.jti) := by
    apply WebRag.eraseP_not_mem_of_unique hnodup (by simp)
    intro b hb hpb
    exact hjti b hb (by simpa using hpb)
  have hnone : (tokens.eraseP (fun r => r.jti = rec.jti) ++
      ([⟨WebRag.create_refresh_token user.email rec.user_id rJ now sigR,
        WebRag.tokenSecondSegment
          (WebRag.create_refresh_token user.email rec.user_id rJ now sigR),
        rec.user_id, now, now + 7 * 86400⟩] : List WebRag.TokenRec)).find?
      (fun r => r.token = R) = none := by
    apply List.find?_eq_none.mpr
    intro r hr
    simp only [List.mem_append, List.mem_singleton] at hr
    rcases hr with hr | hr
    · intro hp
      have htok : r.token = R := by simpa using hp
      have : r = rec := huniq r (List.mem_of_mem_eraseP hr) htok
      exact hrecnotin (this ▸ hr)
    · subst hr
      simpa using hfresh
  rw [hr1]
  simp only [WebRag.refreshEndpoint, hnone]

/-- Witness for `C2_refresh_rotation_single_use`: rotating a concrete
stored refresh token once succeeds; rotating the same value again is a
401. -/
theorem C2_refresh_rotation_single_use_witness :
    (([⟨"A.B.C", "B", "u1", 0, 604800⟩] : List WebRag.TokenRec).find?
        (fun r => r.token = "A.B.C") = some ⟨"A.B.C", "B", "u1", 0, 604800⟩) ∧
    (WebRag.refreshEndpoint
        (WebRag.refreshEndpoint [⟨"A.B.C", "B", "u1", 0, 604800⟩]
          [⟨"u1", "n", "e@x", "pw", 0, 0⟩] ⟨⟨[]⟩, true⟩ "A.B.C" "j1" "j2" 0
          [0] [0]).2.1
        [⟨"u1", "n", "e@x", "pw", 0, 0⟩]
        (WebRag.refreshEndpoint [⟨"A.B.C", "B", "u1", 0, 604800⟩]
          [⟨"u1", "n", "e@x", "pw", 0, 0⟩] ⟨⟨[]⟩, true⟩ "A.B.C" "j1" "j2" 0
          [0] [0]).2.2
        "A.B.C" "j3" "j4" 1 [0] [0]).1 = .error 401 := by
  refine ⟨by decide, ?_⟩
  exact (C2_refresh_rotation_single_use [⟨"A.B.C", "B", "u1", 0, 604800⟩]
    [⟨"u1", "n", "e@x", "pw", 0, 0⟩] ⟨⟨[]⟩, true⟩ "A.B.C"
    ⟨"A.B.C", "B", "u1", 0, 604800⟩ ⟨"u1", "n", "e@x", "pw", 0, 0⟩
    "j1" "j2" 0 [0] [0]
    (by decide) (by decide) rfl (by decide) (by decide) (by decide)
    (by decide)).2 "j3" "j4" 1 [0] [0]

namespace WebRag

/-- The rate key of one (client, path) never equals the block key of
any client: the key families have different prefixes. -/
theorem rateKey_ne_blockKey (ip path ip' : String) :
    ("rate:" ++ ip ++ ":" ++ path : String) ≠ "block:" ++ ip' := by
  intro h
  have h2 := congrArg String.data h
  simp only [String.data_append] at h2
  simp at h2

/-- One admitted request below the limit: the check returns `true` and
the counter advances from `k` to `k + 1`. -/
theorem admit_step (env : RedisEnv) (xff : Option String)
    (host path : String) (limit k : Nat)
    (hinv : RLInv ("rate:" ++ getClientIp xff host ++ ":" ++ path)
      ("block:" ++ getClientIp xff host) k env)
    (hk : k < limit) :
    (checkRateLimitSome env xff host path limit).1 = true ∧
    RLInv ("rate:" ++ getClientIp xff host ++ ":" ++ path)
      ("block:" ++ getClientIp xff host) (k + 1)
      (checkRateLimitSome env xff host path limit).2 := by
  obtain ⟨hre, hb, hrk⟩ := hinv
  have hgetb : env.get ("block:" ++ getClientIp xff host) = .ok none := by
    rw [RedisEnv.get, if_pos (by simp [hre]), hb]
  have hgetr : env.get ("rate:" ++ getClientIp xff host ++ ":" ++ path) =
      .ok (if k = 0 then none else some (natRepr k)) := by
    rw [RedisEnv.get, if_pos (by simp [hre]), hrk]
  cases k with
  | zero =>
    have hset : env.setEx ("rate:" ++ getClientIp xff host ++ ":" ++ path)
        "1" RATE_LIMIT_WINDOW =
        .ok ⟨env.store.setKey ("rate:" ++ getClientIp xff host ++ ":" ++
          path) "1" (some RATE_LIMIT_WINDOW), true⟩ := by
      rw [RedisEnv.setEx, if_pos (by simp [hre])]
    have hnl : ¬ limit ≤ 0 := by omega
    simp only [checkRateLimitSome, hgetb, hgetr, hset, pyTruthy]
    simp only [reduceIte, Bool.false_eq_true, Option.getD_none, hnl]
    refine ⟨by trivial, by trivial, ?_, ?_⟩
    · rw [lookup_setKey_ne _ _ _ _ _
        (fun h => rateKey_ne_blockKey _ _ _ h.symm), hb]
    · rw [lookup_setKey_self]
      simp [(by decide : natRepr 1 = "1")]
  | succ k' =>
    have hne : pyTruthy (some (natRepr (k' + 1))) = true := by
      simp [pyTruthy, natRepr_ne_empty]
    have hgetr2 : env.get ("rate:" ++ getClientIp xff host ++ ":" ++ path) =
        .ok (some (natRepr (k' + 1))) := by
      rw [RedisEnv.get, if_pos (by simp [hre]), hrk]
      simp
    have hincr : env.incr ("rate:" ++ getClientIp xff host ++ ":" ++ path) =
        .ok ⟨env.store.setKey ("rate:" ++ getClientIp xff host ++ ":" ++
            path) (natRepr (k' + 1 + 1))
            ((env.store.entries.find? (fun e => e.key =
              "rate:" ++ getClientIp xff host ++ ":" ++ path)).bind
              KVEntry.ttl), true⟩ := by
      rw [RedisEnv.incr, if_pos (by simp [hre])]
      rw [(by simpa using hrk : env.store.lookup
        ("rate:" ++ getClientIp xff host ++ ":" ++ path) =
          some (natRepr (k' + 1)))]
      simp only [pyInt_natRepr]
    simp only [checkRateLimitSome, hgetb, hgetr2]
    simp only [show pyTruthy none = false from rfl, hne, reduceIte,
      Bool.false_eq_true, Option.getD_some, pyInt_natRepr,
      if_neg (by omega : ¬ limit ≤ k' + 1),
      if_neg (by omega : ¬ (k' + 1 = 0))]
    simp only [hincr, RedisEnv.expire, lookup_setKey_self, reduceIte]
    refine ⟨by trivial, by trivial, ?_, ?_⟩
    · rw [lookup_setKey_ne _ _ _ _ _
        (fun h => rateKey_ne_blockKey _ _ _ h.symm),
        lookup_setKey_ne _ _ _ _ _
        (fun h => rateKey_ne_blockKey _ _ _ h.symm), hb]
    · rw [lookup_setKey_self]
      simp

/-- A request at or above the limit is refused. -/
theorem admit_refuse (env : RedisEnv) (xff : Option String)
    (host path : String) (limit k : Nat)
    (hinv : RLInv ("rate:" ++ getClientIp xff host ++ ":" ++ path)
      ("block:" ++ getClientIp xff host) k env)
    (hk : limit ≤ k) :
    (checkRateLimitSome env xff host path limit).1 = false := by
  obtain ⟨hre, hb, hrk⟩ := hinv
  have hgetb : env.get ("block:" ++ getClientIp xff host) = .ok none := by
    rw [RedisEnv.get, if_pos (by simp [hre]), hb]
  cases k with
  | zero =>
    have hgetr0 : env.get ("rate:" ++ getClientIp xff host ++ ":" ++ path) =
        .ok none := by
      rw [RedisEnv.get, if_pos (by simp [hre]), hrk]
      simp
    simp only [checkRateLimitSome, hgetb, hgetr0]
    simp only [show pyTruthy none = false from rfl, reduceIte,
      Bool.false_eq_true, if_pos hk]
    split
    · split <;> rfl
    · rfl
  | succ k' =>
    have hne : pyTruthy (some (natRepr (k' + 1))) = true := by
      simp [pyTruthy, natRepr_ne_empty]
    have hgetr2 : env.get ("rate:" ++ getClientIp xff host ++ ":" ++ path) =
        .ok (some (natRepr (k' + 1))) := by
      rw [RedisEnv.get, if_pos (by simp [hre]), hrk]
      simp
    simp only [checkRateLimitSome, hgetb, hgetr2]
    simp only [show pyTruthy none = false from rfl, hne, reduceIte,
      Bool.false_eq_true, Option.getD_some, pyInt_natRepr, if_pos hk]
    split
    · split <;> rfl
    · rfl

/-- Below the limit, `m` consecutive checks are all admitted and the
counter ends at `k + m`. -/
theorem runAdmits_all_true (xff : Option String) (host path : String)
    (limit : Nat) : ∀ (m k : Nat) (env : RedisEnv),
    RLInv ("rate:" ++ getClientIp xff host ++ ":" ++ path)
      ("block:" ++ getClientIp xff host) k env →
    k + m ≤ limit →
    (runAdmits xff host path limit m env).1 = List.replicate m true ∧
    RLInv ("rate:" ++ getClientIp xff host ++ ":" ++ path)
      ("block:" ++ getClientIp xff host) (k + m)
      (runAdmits xff host path limit m env).2 := by
  intro m
  induction m with
  | zero => intro k env hinv _; exact ⟨rfl, hinv⟩
  | succ m ih =>
    intro k env hinv hkm
    have hstep := admit_step env xff host path limit k hinv (by omega)
    have hrest := ih (k + 1) (checkRateLimitSome env xff host path limit).2
      hstep.2 (by omega)
    unfold runAdmits
    refine ⟨?_, ?_⟩
    · simp only [hstep.1, hrest.1, List.replicate_succ]
    · have : k + (m + 1) = k + 1 + m := by omega
      rw [this]
      exact hrest.2

/-- Starting `m` admissions short of the limit, the next `m` checks
are admitted and the following one is refused. -/
theorem runAdmits_until_refuse (xff : Option String) (host path : String)
    (limit : Nat) : ∀ (m k : Nat) (env : RedisEnv),
    RLInv ("rate:" ++ getClientIp xff host ++ ":" ++ path)
      ("block:" ++ getClientIp xff host) k env →
    k + m = limit →
    (runAdmits xff host path limit (m + 1) env).1 =
      List.replicate m true ++ [false] := by
  intro m
  induction m with
  | zero =>
    intro k env hinv hkm
    show ((checkRateLimitSome env xff host path limit).1 ::
      (runAdmits xff host path limit 0
        (checkRateLimitSome env xff host path limit).2).1) = _
    rw [admit_refuse env xff host path limit k hinv (by omega)]
    rfl
  | succ m ih =>
    intro k env hinv hkm
    have hstep := admit_step env xff host path limit k hinv (by omega)
    have hrest := ih (k + 1) (checkRateLimitSome env xff host path limit).2
      hstep.2 (by omega)
    show ((checkRateLimitSome env xff host path limit).1 ::
      (runAdmits xff host path limit (m + 1)
        (checkRateLimitSome env xff host path limit).2).1) = _
    rw [hstep.1, hrest, List.replicate_succ]
    rfl

end WebRag

/-- C4: with configured limit `N` and a reachable counter store, the
first `N` admission checks within one window for a key are admitted
and the `(N+1)`-th is refused; once the window's TTL has expired — the
counter key is gone again, i.e. the start state recurs — the next
check for that key is admitted again. -/
theorem C4_rate_limit_boundary (xff : Option String) (host path : String)
    (N : Nat) (hN : 0 < N) (env : WebRag.RedisEnv)
    (hinv : WebRag.RLInv
      ("rate:" ++ WebRag.getClientIp xff host ++ ":" ++ path)
      ("block:" ++ WebRag.getClientIp xff host) 0 env) :
    (WebRag.runAdmits xff host path N (N + 1) env).1 =
      List.replicate N true ++ [false] ∧
    ∀ env' : WebRag.RedisEnv,
      WebRag.RLInv ("rate:" ++ WebRag.getClientIp xff host ++ ":" ++ path)
        ("block:" ++ WebRag.getClientIp xff host) 0 env' →
      (WebRag.checkRateLimitSome env' xff host path N).1 = true := by
  constructor
  · exact WebRag.runAdmits_until_refuse xff host path N N 0 env hinv
      (by omega)
  · intro env' hinv'
    exact (WebRag.admit_step env' xff host path N 0 hinv' hN).1

/-- Witness for `C4_rate_limit_boundary` with `N = 1` on an empty
reachable store: the first check is admitted, the second refused. -/
theorem C4_rate_limit_boundary_witness :
    (0 < 1 ∧ WebRag.RLInv
      ("rate:" ++ WebRag.getClientIp (some "1.2.3.4") "h" ++ ":" ++ "/x")
      ("block:" ++ WebRag.getClientIp (some "1.2.3.4") "h") 0
      ⟨⟨[]⟩, true⟩) ∧
    (WebRag.runAdmits (some "1.2.3.4") "h" "/x" 1 2 ⟨⟨[]⟩, true⟩).1 =
      [true, false] := by
  refine ⟨⟨by omega, rfl, by decide, by decide⟩, ?_⟩
  have h := (C4_rate_limit_boundary (some "1.2.3.4") "h" "/x" 1 (by omega)
    ⟨⟨[]⟩, true⟩ ⟨rfl, by decide, by decide⟩).1
  simpa using h
